import Mathlib

/-! Formal model of the AI-safe pipeline orchestrator implemented in
scripts/ai-pipeline/run-pipeline.sh and of its step scripts
(syntax-check.sh, the code-style script, the security-scan script, the
breaking-changes script, the human-review script).

The orchestrator is a bash script executed under `set -e` (run-pipeline.sh
line 3).  The embedding therefore follows the errexit semantics of bash:
a simple command (including a function invocation) that returns a nonzero
status outside of a tested context terminates the whole shell process with
that status.  Consequences reflected in the model, each checked against
bash behaviour:

* in run_step, the step-script invocation (lines 140-145) is a plain
  command, so a nonzero exit status of the script terminates the
  orchestrator at once, before status.json (lines 152-158) is written and
  before the required/optional branch (lines 160-172) is reached;
* a `return 1` from run_step (missing required script, line 124, and the
  dead branch at line 167) terminates the orchestrator at the plain call
  sites in run_iteration (lines 204, 235);
* the statements `local step_result=$(cat ...)` mask a failing command
  substitution (bash: the exit status of `local` is that of `local`
  itself), so a missing status.json for a skipped optional step does not
  terminate the run, and the jq append of the empty string leaves the
  steps array unchanged;
* in the main loop, `check_stopping_conditions` (line 290) is a plain
  call, so a nonzero return (the would-be continue case) terminates the
  orchestrator with status 1; the loop can never reach a second
  iteration.

Nondeterministic and external inputs (the $RANDOM draws, `shuf`, the git
state, which step scripts exist on disk, the exit codes of the step
scripts) are supplied by environment records.  Timestamps and durations,
which are inert text in the records, are elided.  jq field access on an
object missing the key yields null, modelled by `Option` with `none`;
the jq comparison `null > 0` is false. -/

namespace AIPipeline

/-- A configured pipeline step (config fields id, name, required read at
run-pipeline.sh lines 107-110) together with its environment: whether the
script file exists on disk (the test at line 119) and the exit status the
script returns when invoked at a given iteration (lines 140-147). -/
structure StepDef where
  id : String
  name : String
  required : Bool
  scriptExists : Bool
  exitCode : Nat → Nat

/-- The status.json document written by run_step (run-pipeline.sh lines
152-158).  The keys written are exactly step_id, step_name, exit_code,
duration_seconds and timestamp; the two timing fields are elided as inert.
There is no warnings key, so the jq lookup `.warnings` used by
check_stopping_conditions (line 268) yields null; the field is modelled
as an `Option Nat` that every write site sets to `none`. -/
structure StepStatus where
  step_id : String
  step_name : String
  exit_code : Nat
  warnings : Option Nat
deriving DecidableEq, Repr

/-- One entry of the iterations array of the results file
(run-pipeline.sh lines 194-199, 215, 244).  The success path (line 244)
adds only a status key, so failed_step is absent, modelled as `none`;
the timestamp is elided. -/
structure IterationResult where
  iteration : Nat
  steps_run : Nat
  steps : List StepStatus
  status : String
  failed_step : Option String
deriving DecidableEq, Repr

/-- The inputs of one orchestrator run: the configuration values read at
run-pipeline.sh lines 88-90 and 107-110, the --max-iterations argument
(line 48), and oracles for the $RANDOM draw of line 188 and the `shuf`
invocation of line 232 (one value per iteration). -/
structure PipelineEnv where
  minSteps : Nat
  maxSteps : Nat
  steps : List StepDef
  maxIterations : Nat
  draw : Nat → Nat
  shuffle : Nat → List StepDef → List StepDef

/-- The required steps, in configuration order (run-pipeline.sh line 202:
jq select .required == true). -/
def requiredSteps (env : PipelineEnv) : List StepDef :=
  env.steps.filter (fun s => s.required)

/-- The optional steps, in configuration order (run-pipeline.sh line 226:
jq select .required == false). -/
def optionalSteps (env : PipelineEnv) : List StepDef :=
  env.steps.filter (fun s => !s.required)

/-- Word count of the required id list (run-pipeline.sh line 227). -/
def requiredCount (env : PipelineEnv) : Nat :=
  (requiredSteps env).length

/-- steps_to_run (run-pipeline.sh lines 188-189): a value in
[MIN_STEPS, MAX_STEPS] drawn from $RANDOM, then capped at the number of
configured steps.  The bash arithmetic is over integers; the Nat
subtraction agrees with it whenever minSteps is at most maxSteps, the
regime every claim about this quantity assumes. -/
def stepsToRun (env : PipelineEnv) (i : Nat) : Nat :=
  min (env.draw i % (env.maxSteps - env.minSteps + 1) + env.minSteps) env.steps.length

/-- optional_count (run-pipeline.sh line 228), an integer that may be
negative when more required steps exist than steps_to_run. -/
def optionalBudget (env : PipelineEnv) (i : Nat) : Int :=
  (stepsToRun env i : Int) - (requiredCount env : Int)

/-- The optional steps selected for an iteration (run-pipeline.sh lines
230-232): when the budget is positive, the first budget-many entries of
the shuffled optional list; otherwise none. -/
def selectedOptionals (env : PipelineEnv) (i : Nat) : List StepDef :=
  if 0 < optionalBudget env i then
    (env.shuffle i (optionalSteps env)).take (optionalBudget env i).toNat
  else []

/-- The steps on which run_step is invoked during iteration i, in
execution order: all required steps first (lines 203-223), then the
selected optional steps (lines 234-240). -/
def selectedSteps (env : PipelineEnv) (i : Nat) : List StepDef :=
  requiredSteps env ++ selectedOptionals env i

/-- Outcome of one run_step invocation under errexit. -/
inductive StepOutcome where
  /-- The script ran and exited 0; status.json was recorded. -/
  | ok (st : StepStatus)
  /-- Optional step whose script is missing (lines 125-128): a warning is
  logged, no status.json is written, the run continues. -/
  | skipped
  /-- The orchestrator process terminates with this status: either the
  script exited nonzero (errexit fires at the invocation, lines 140-147),
  or a required script is missing (`return 1` at line 124 makes the plain
  call site fail). -/
  | fatal (code : Nat)
deriving DecidableEq, Repr

/-- run_step (run-pipeline.sh lines 102-173) under `set -e`. -/
def run_step (s : StepDef) (iteration : Nat) : StepOutcome :=
  if s.scriptExists = false then
    if s.required then .fatal 1 else .skipped
  else if s.exitCode iteration = 0 then
    .ok { step_id := s.id, step_name := s.name, exit_code := 0, warnings := none }
  else
    .fatal (s.exitCode iteration)

/-- Outcome of running a list of steps in order within one iteration. -/
inductive IterOutcome where
  | completed (sts : List StepStatus)
  | fatal (code : Nat)
deriving DecidableEq, Repr

/-- Sequential execution of the selected steps (the two loops at
run-pipeline.sh lines 203-223 and 234-240).  A recorded status is
appended to the steps array; a skipped step appends nothing (the cat of
the absent status.json yields the empty string and the jq append leaves
the array unchanged); a fatal outcome terminates the process. -/
def runSteps (iteration : Nat) : List StepDef → IterOutcome
  | [] => .completed []
  | s :: rest =>
    match run_step s iteration with
    | .fatal c => .fatal c
    | .skipped => runSteps iteration rest
    | .ok st =>
      match runSteps iteration rest with
      | .fatal c => .fatal c
      | .completed sts => .completed (st :: sts)

/-- Outcome of run_iteration under errexit: either the iteration result
appended to the results file by lines 244-248, or process death.  The
failed-iteration branch at lines 211-221 is unreachable: every path that
would enter it has already terminated the process (see the module
comment), so no failed IterationResult is ever produced. -/
inductive IterRun where
  | success (res : IterationResult)
  | fatal (code : Nat)
deriving DecidableEq, Repr

/-- run_iteration (run-pipeline.sh lines 176-252) under `set -e`. -/
def run_iteration (env : PipelineEnv) (i : Nat) : IterRun :=
  match runSteps i (selectedSteps env i) with
  | .fatal c => .fatal c
  | .completed sts =>
    .success { iteration := i, steps_run := stepsToRun env i, steps := sts,
               status := "success", failed_step := none }

/-- The jq filter `select(.warnings > 0)` of run-pipeline.sh line 268
applied to one step status: the comparison is false when the key is
absent (jq: null > 0 is false). -/
def hasWarnings (st : StepStatus) : Bool :=
  match st.warnings with
  | some w => decide (0 < w)
  | none => false

/-- check_stopping_conditions (run-pipeline.sh lines 255-277), returning
true for stop (shell status 0).  Index i out of range would make the jq
status lookup yield null, which is not the string success. -/
def check_stopping_conditions (env : PipelineEnv) (doc : List IterationResult)
    (i : Nat) : Bool :=
  if env.maxIterations ≤ i then true
  else
    match doc.get? i with
    | some itr => itr.status == "success" && itr.steps.all (fun st => !hasWarnings st)
    | none => false

/-- Final state of the orchestrator process: its exit status and the
iterations array of the persisted results file at exit. -/
inductive RunOutcome where
  | exitZero (doc : List IterationResult)
  | exitNonzero (code : Nat) (doc : List IterationResult)
deriving DecidableEq, Repr

/-- The main loop (run-pipeline.sh lines 280-296) under `set -e`,
together with the results-file snapshots persisted during the loop body.
The body cannot reach a second iteration: a fatal step outcome has
already terminated the process; otherwise the iteration is appended
(lines 247-248) and check_stopping_conditions either stops the run
(break, then exit 0 at line 309) or, returning 1 as a plain command at
line 290, terminates the process with status 1 under errexit.  The
increment at line 295 is therefore unreachable. -/
def mainLoop (env : PipelineEnv) (i : Nat) (doc : List IterationResult) :
    RunOutcome × List (List IterationResult) :=
  if i < env.maxIterations then
    match run_iteration env i with
    | .fatal c => (.exitNonzero c doc, [])
    | .success res =>
      if check_stopping_conditions env (doc ++ [res]) i then
        (.exitZero (doc ++ [res]), [doc ++ [res]])
      else
        (.exitNonzero 1 (doc ++ [res]), [doc ++ [res]])
  else (.exitZero doc, [])

/-- A whole orchestrator run: the results file is initialised to an empty
iterations array (run-pipeline.sh line 99), then the main loop runs. -/
def runPipeline (env : PipelineEnv) : RunOutcome :=
  (mainLoop env 0 []).1

/-- The successive values of the iterations array of the results file at
its persistence points: the initial write of line 99 followed by the
snapshots written inside the loop. -/
def persistTrace (env : PipelineEnv) : List (List IterationResult) :=
  [] :: (mainLoop env 0 []).2

/-! Embedding of the step scripts.  Each diff-based script
(syntax-check.sh; the code-style, security-scan and breaking-changes
scripts) begins with the same gate: `git show-ref --verify --quiet
refs/heads/$BRANCH`; when the branch is missing it writes a placeholder
changed-files note and exits 0, and when the diff against main is empty
it exits 0 (syntax-check.sh lines 59-78).  The simulated analysis
results ($RANDOM-driven error, issue and vulnerability counts) are
supplied by the environment. -/

/-- The git-visible environment of one step-script invocation: whether
the target branch exists, the lines of `git diff --name-only
main..BRANCH`, which changed files exist in the workspace
(syntax-check.sh line 191), and the $RANDOM-driven per-file error count
(syntax-check.sh line 138). -/
structure GitEnv where
  branchExists : Bool
  changedFiles : List String
  fileExists : String → Bool
  errorCount : String → Nat

/-- The changed-file set a step determines: the diff against main when
the branch exists, otherwise empty (the script skips the diff and writes
only a placeholder note, syntax-check.sh lines 73-77). -/
def changedFilesRecorded (g : GitEnv) : List String :=
  if g.branchExists then g.changedFiles else []

/-- TOTAL_ERRORS of syntax-check.sh line 199: the sum of the per-file
error counts over the changed files that exist in the workspace (files
missing from the workspace are skipped at lines 191-195). -/
def syntaxTotalErrors (g : GitEnv) : Nat :=
  (((changedFilesRecorded g).filter (fun f => g.fileExists f)).map g.errorCount).sum

/-- Exit status of syntax-check.sh: 0 when the branch is missing (line
77) or the diff is empty (line 70); otherwise 1 exactly when
TOTAL_ERRORS exceeds 5 (lines 216-218), else 0 (line 227). -/
def syntaxCheckExit (g : GitEnv) : Nat :=
  if g.branchExists = false then 0
  else if g.changedFiles.length = 0 then 0
  else if 5 < syntaxTotalErrors g then 1 else 0

/-- Exit status of the code-style script: after the same two gates it
always exits 0 (its issue thresholds only print warnings). -/
def codeStyleExit (g : GitEnv) : Nat :=
  if g.branchExists = false then 0
  else if g.changedFiles.length = 0 then 0
  else 0

/-- Exit status of the security-scan script, given the iteration number
and the CRITICAL_COUNT of the simulated scan: after the two gates it
exits 1 exactly when at least one critical finding exists and the
iteration number is positive (lines 606-617 of the script; at iteration
0 a critical finding only prints a warning); the high-severity check
only warns. -/
def securityScanExit (g : GitEnv) (iteration critical : Nat) : Nat :=
  if g.branchExists = false then 0
  else if g.changedFiles.length = 0 then 0
  else if 0 < critical ∧ 0 < iteration then 1 else 0

/-- Exit status of the breaking-changes script, given the simulated
API-breaking, DB-breaking and failed-test counts: after the two gates it
exits 1 when the total breaking-change count exceeds 2 (script lines
288-298) or, failing that, when more than 5 tests failed (lines
303-316); otherwise 0. -/
def breakingChangesExit (g : GitEnv) (api db tests : Nat) : Nat :=
  if g.branchExists = false then 0
  else if g.changedFiles.length = 0 then 0
  else if 2 < api + db then 1
  else if 5 < tests then 1 else 0

/-- Exit status of the human-review script: it always exits 0 (its last
lines), simulating a non-blocking review request; with a missing branch
it notes that no changes were detected. -/
def humanReviewExit (g : GitEnv) : Nat := 0

/-! Concrete sample data used by witnesses and counterexamples. -/

/-- The syntax_check step with an existing script that always exits 0. -/
def stepSC : StepDef :=
  { id := "syntax_check", name := "Syntax Check", required := true,
    scriptExists := true, exitCode := fun _ => 0 }

/-- The syntax_check step whose script exits 1. -/
def stepSCfail : StepDef := { stepSC with exitCode := fun _ => 1 }

/-- The syntax_check step whose script file is missing from disk. -/
def stepSCmissing : StepDef := { stepSC with scriptExists := false }

/-- A second required step that always exits 0. -/
def stepCV : StepDef :=
  { id := "context_validation", name := "Context Validation", required := true,
    scriptExists := true, exitCode := fun _ => 0 }

/-- The optional code_style step with an existing script exiting 0. -/
def stepCS : StepDef :=
  { id := "code_style", name := "Code Style Verification", required := false,
    scriptExists := true, exitCode := fun _ => 0 }

/-- The optional code_style step whose script exits 1. -/
def stepCSfail : StepDef := { stepCS with exitCode := fun _ => 1 }

/-- The optional code_style step whose script file is missing. -/
def stepCSmissing : StepDef := { stepCS with scriptExists := false }

/-- Run with one required step whose script exists and exits 1. -/
def envReqFail : PipelineEnv :=
  { minSteps := 1, maxSteps := 1, steps := [stepSCfail], maxIterations := 5,
    draw := fun _ => 0, shuffle := fun _ l => l }

/-- Run with a passing required step and a failing optional step that is
always selected (minSteps = maxSteps = 2). -/
def envOptFail : PipelineEnv :=
  { minSteps := 2, maxSteps := 2, steps := [stepSC, stepCSfail], maxIterations := 5,
    draw := fun _ => 0, shuffle := fun _ l => l }

/-- Run with one required step whose script is missing from disk. -/
def envReqMissing : PipelineEnv :=
  { minSteps := 1, maxSteps := 1, steps := [stepSCmissing], maxIterations := 5,
    draw := fun _ => 0, shuffle := fun _ l => l }

/-- Run with a passing required step and an optional step whose script is
missing; the optional step is always selected. -/
def envOptMissing : PipelineEnv :=
  { minSteps := 2, maxSteps := 2, steps := [stepSC, stepCSmissing], maxIterations := 5,
    draw := fun _ => 0, shuffle := fun _ l => l }

/-- Run with two required and one optional step but minSteps = maxSteps = 1:
both required steps are executed regardless of the bound. -/
def envTwoReq : PipelineEnv :=
  { minSteps := 1, maxSteps := 1, steps := [stepSC, stepCV, stepCS], maxIterations := 1,
    draw := fun _ => 0, shuffle := fun _ l => l }

/-- A fully passing run: one required and one optional step, bounds 1-2,
max-iterations 5, with a draw selecting one step per iteration. -/
def envAllPass : PipelineEnv :=
  { minSteps := 1, maxSteps := 2, steps := [stepSC, stepCS], maxIterations := 5,
    draw := fun _ => 0, shuffle := fun _ l => l }

/-- A fully passing run in which the optional step is always selected. -/
def envBothPass : PipelineEnv :=
  { minSteps := 2, maxSteps := 2, steps := [stepSC, stepCS], maxIterations := 5,
    draw := fun _ => 0, shuffle := fun _ l => l }

/-- The status.json content recorded for a passing syntax_check run. -/
def statusSC : StepStatus :=
  { step_id := "syntax_check", step_name := "Syntax Check", exit_code := 0,
    warnings := none }

/-- The status.json content recorded for a passing context_validation run. -/
def statusCV : StepStatus :=
  { step_id := "context_validation", step_name := "Context Validation",
    exit_code := 0, warnings := none }

/-- The status.json content recorded for a passing code_style run. -/
def statusCS : StepStatus :=
  { step_id := "code_style", step_name := "Code Style Verification",
    exit_code := 0, warnings := none }

/-- The iteration record produced by iteration 0 of envAllPass. -/
def resAllPass : IterationResult :=
  { iteration := 0, steps_run := 1, steps := [statusSC], status := "success",
    failed_step := none }

/-- The iteration record produced by iteration 0 of envBothPass. -/
def resBothPass : IterationResult :=
  { iteration := 0, steps_run := 2, steps := [statusSC, statusCS],
    status := "success", failed_step := none }

/-- The iteration record produced by iteration 0 of envOptMissing: the
skipped optional step leaves no status entry. -/
def resOptMissing : IterationResult :=
  { iteration := 0, steps_run := 2, steps := [statusSC], status := "success",
    failed_step := none }

/-- The iteration record produced by iteration 0 of envTwoReq. -/
def resTwoReq : IterationResult :=
  { iteration := 0, steps_run := 1, steps := [statusSC, statusCV],
    status := "success", failed_step := none }

/-- A step-script environment with a missing target branch. -/
def gitNoBranch : GitEnv :=
  { branchExists := false, changedFiles := ["a.ts"], fileExists := fun _ => true,
    errorCount := fun _ => 9 }

/-- A step-script environment with an existing branch and one changed
file carrying 7 simulated syntax errors. -/
def gitOneFile : GitEnv :=
  { branchExists := true, changedFiles := ["a.ts"], fileExists := fun _ => true,
    errorCount := fun _ => 7 }

/-! Helper lemmas. -/

/-- Every status.json recorded by run_step carries no warnings key. -/
theorem run_step_ok_warnings (s : StepDef) (i : Nat) (st : StepStatus)
    (h : run_step s i = .ok st) : st.warnings = none := by
  unfold run_step at h
  split at h
  · split at h <;> cases h
  · split at h
    · cases h; rfl
    · cases h

/-- Every status recorded during an iteration carries no warnings key. -/
theorem runSteps_warnings_none (iteration : Nat) :
    ∀ (l : List StepDef) (sts : List StepStatus),
      runSteps iteration l = .completed sts → ∀ st ∈ sts, st.warnings = none := by
  intro l
  induction l with
  | nil =>
    intro sts h st hst
    unfold runSteps at h
    cases h
    cases hst
  | cons s rest ih =>
    intro sts h st hst
    unfold runSteps at h
    cases hro : run_step s iteration <;> rw [hro] at h
    case skipped => exact ih sts h st hst
    case fatal c => cases h
    case ok st0 =>
      cases hrr : runSteps iteration rest <;> rw [hrr] at h
      case fatal c => cases h
      case completed sts2 =>
        cases h
        rcases List.mem_cons.mp hst with he | hm
        · rw [he]
          exact run_step_ok_warnings s iteration st0 hro
        · exact ih sts2 hrr st hm

/-- A successful iteration yields a record with status success, the
iteration number of the call, no failed_step key, and statuses without a
warnings key. -/
theorem run_iteration_success_shape (env : PipelineEnv) (i : Nat)
    (res : IterationResult) (h : run_iteration env i = .success res) :
    res.status = "success" ∧ res.iteration = i ∧ res.failed_step = none
    ∧ ∀ st ∈ res.steps, st.warnings = none := by
  unfold run_iteration at h
  cases hrs : runSteps i (selectedSteps env i) <;> rw [hrs] at h
  case fatal c => cases h
  case completed sts =>
    cases h
    exact ⟨rfl, rfl, rfl, runSteps_warnings_none i (selectedSteps env i) sts hrs⟩

/-- After a successful iteration, the stopping condition of
run-pipeline.sh lines 264-273 is met: the status is success and the jq
warnings filter selects nothing. -/
theorem check_stopping_of_no_warnings (env : PipelineEnv)
    (res : IterationResult) (hstat : res.status = "success")
    (hw : ∀ st ∈ res.steps, st.warnings = none) :
    check_stopping_conditions env [res] 0 = true := by
  unfold check_stopping_conditions
  by_cases hm : env.maxIterations ≤ 0
  · simp [hm]
  · simp only [hm, if_false]
    have hget : ([res] : List IterationResult).get? 0 = some res := rfl
    rw [hget]
    show (res.status == "success" && res.steps.all fun st => !hasWarnings st) = true
    rw [hstat]
    simp only [beq_self_eq_true, Bool.true_and, List.all_eq_true]
    intro st hst
    simp [hasWarnings, hw st hst]

/-- The lengths of the required and the optional sublists add up to the
number of configured steps. -/
theorem requiredCount_add_optional (env : PipelineEnv) :
    requiredCount env + (optionalSteps env).length = env.steps.length := by
  unfold requiredCount requiredSteps optionalSteps
  induction env.steps with
  | nil => rfl
  | cons s rest ih =>
    cases hreq : s.required <;> simp [List.filter, hreq] <;> omega

/-! Claim theorems. -/

/-- Claim C1.  The claim asserts that a nonzero exit of a required step
makes the orchestrator persist the failed iteration (status failed,
failedStep set) before exiting nonzero.  The code diverges: under
`set -e` the process terminates with the step exit status right at the
failing invocation, before status.json and before the failed-iteration
append of run-pipeline.sh lines 211-221, so the persisted record still
has an empty iterations array.  Evaluated here at a run whose single
required step exits 1: the process exits 1 and the only persisted
snapshot is the initial empty record. -/
theorem requiredStepFailure_aborts_without_record :
    runPipeline envReqFail = .exitNonzero 1 [] ∧ persistTrace envReqFail = [[]] :=
  ⟨rfl, rfl⟩

/-- Claim C2.  The claim asserts that a nonzero exit of an optional step
is recorded and the run continues.  The code diverges: `set -e` fires at
the script invocation inside run_step, before the required/optional
branch of lines 160-172 is reached, so a failing optional step kills the
whole run with nothing recorded.  Evaluated at a run with a passing
required step followed by a selected optional step exiting 1: the
process dies with status 1 and no iteration is persisted. -/
theorem optionalStepFailure_terminates_run :
    runPipeline envOptFail = .exitNonzero 1 [] ∧ persistTrace envOptFail = [[]] :=
  ⟨rfl, rfl⟩

/-- Claim C3.  After any successful iteration 0 the run terminates with
exit status 0 having produced exactly one IterationResult, and the
stated stopping condition holds there: the iteration status is success
and the jq warnings filter selects no step, so the success disjunct of
the stopping rule is met (the max-iterations disjunct is subsumed: a
recorded status never carries warnings, hence the success disjunct
always fires first).  This covers the spec scenario maxIterations = 5
with every step exiting 0 and reporting zero warnings. -/
theorem run_stops_after_first_successful_iteration
    (env : PipelineEnv) (res : IterationResult)
    (hmax : 0 < env.maxIterations)
    (hrun : run_iteration env 0 = .success res) :
    runPipeline env = .exitZero [res]
    ∧ res.status = "success"
    ∧ res.steps.all (fun st => !hasWarnings st) = true
    ∧ check_stopping_conditions env [res] 0 = true := by
  obtain ⟨hstat, hiter, hfs, hw⟩ := run_iteration_success_shape env 0 res hrun
  have hcheck := check_stopping_of_no_warnings env res hstat hw
  refine ⟨?_, hstat, ?_, hcheck⟩
  · simp [runPipeline, mainLoop, hrun, hmax, hcheck]
  · simp only [List.all_eq_true]
    intro st hst
    simp [hasWarnings, hw st hst]

/-- Witness for C3: the scenario run envBothPass (maxIterations 5, both
steps selected, every script exits 0) terminates after iteration 0 with
exactly one IterationResult. -/
theorem run_stops_after_first_successful_iteration_witness :
    runPipeline envBothPass = .exitZero [resBothPass]
    ∧ resBothPass.status = "success"
    ∧ resBothPass.steps.all (fun st => !hasWarnings st) = true
    ∧ check_stopping_conditions envBothPass [resBothPass] 0 = true :=
  run_stops_after_first_successful_iteration envBothPass resBothPass (by decide) rfl

/-- Claim C5.  The optional half holds: a missing optional script is
skipped and the run continues to a successful single-iteration record in
which the skipped step has no entry.  The required half diverges from
the claim: the `return 1` of run-pipeline.sh line 124 makes the plain
run_step call fail under `set -e`, so the process exits 1 before the
failed-iteration append of lines 211-221; the record keeps an empty
iterations array instead of one failed iteration naming the step. -/
theorem missingScript_required_aborts_optional_skipped :
    (runPipeline envReqMissing = .exitNonzero 1 []
      ∧ persistTrace envReqMissing = [[]])
    ∧ runPipeline envOptMissing = .exitZero [resOptMissing] :=
  ⟨⟨rfl, rfl⟩, rfl⟩

/-- Claim C9.  The persisted run record is append-only: the trace of
results-file snapshots starts with the empty iterations array written at
run-pipeline.sh line 99, and every later snapshot is the previous one
with exactly one IterationResult appended (hence every snapshot is a
prefix of the next). -/
theorem run_record_append_only (env : PipelineEnv) :
    (persistTrace env).head? = some []
    ∧ List.Chain' (fun a b => ∃ r, b = a ++ [r]) (persistTrace env)
    ∧ List.Chain' (fun a b => ∃ t, b = a ++ t) (persistTrace env) := by
  have hchain : List.Chain' (fun a b : List IterationResult => ∃ r, b = a ++ [r])
      (persistTrace env) := by
    unfold persistTrace mainLoop
    by_cases hm : (0 : Nat) < env.maxIterations
    · rw [if_pos hm]
      cases hri : run_iteration env 0 with
      | fatal c => simp
      | success res =>
        by_cases hc : check_stopping_conditions env ([] ++ [res]) 0 = true
        · simp only [hc, if_true]
          exact List.Chain'.cons ⟨res, by simp⟩ (List.chain'_singleton _)
        · simp only [hc, if_false]
          exact List.Chain'.cons ⟨res, by simp⟩ (List.chain'_singleton _)
    · rw [if_neg hm]
      simp
  refine ⟨?_, hchain, hchain.imp ?_⟩
  · unfold persistTrace
    rfl
  · rintro a b ⟨r, hr⟩
    exact ⟨[r], hr⟩

/-- Claim C10.  The status.json schema written by run_step has no
warnings field, so after any successful iteration 0 the stopping check
finds no warnings and the run terminates with exactly the iteration-0
record; a second iteration is never executed, for every positive
max-iterations bound. -/
theorem no_warnings_field_forces_single_iteration
    (env : PipelineEnv) (res : IterationResult)
    (hmax : 1 ≤ env.maxIterations)
    (hrun : run_iteration env 0 = .success res) :
    (∀ st ∈ res.steps, st.warnings = none)
    ∧ runPipeline env = .exitZero [res]
    ∧ res.iteration = 0 := by
  obtain ⟨hstat, hiter, hfs, hw⟩ := run_iteration_success_shape env 0 res hrun
  have hmax0 : 0 < env.maxIterations := hmax
  have hcheck := check_stopping_of_no_warnings env res hstat hw
  refine ⟨hw, ?_, hiter⟩
  simp [runPipeline, mainLoop, hrun, hmax0, hcheck]

/-- Witness for C10: the run envAllPass (max-iterations 5) succeeds at
iteration 0 and stops with that single record. -/
theorem no_warnings_field_forces_single_iteration_witness :
    (∀ st ∈ resAllPass.steps, st.warnings = none)
    ∧ runPipeline envAllPass = .exitZero [resAllPass]
    ∧ resAllPass.iteration = 0 :=
  no_warnings_field_forces_single_iteration envAllPass resAllPass (by decide) rfl

/-- Counterexample to claim C4 as stated.  In envTwoReq the bounds
satisfy 0 < minSteps = maxSteps = 1 and maxSteps is at most the three
configured steps, the iteration runs to completion, yet both required
steps are executed: two steps run, which neither lies within the band
[minSteps, maxSteps] = [1, 1] nor equals the number of configured
steps (3).  The required loop of run-pipeline.sh lines 203-223 runs
every required step regardless of steps_to_run. -/
theorem stepsExecuted_bounds_counterexample :
    (0 < envTwoReq.minSteps ∧ envTwoReq.minSteps ≤ envTwoReq.maxSteps
      ∧ envTwoReq.maxSteps ≤ envTwoReq.steps.length)
    ∧ run_iteration envTwoReq 0 = .success resTwoReq
    ∧ (selectedSteps envTwoReq 0).length = 2
    ∧ ¬((envTwoReq.minSteps ≤ (selectedSteps envTwoReq 0).length
          ∧ (selectedSteps envTwoReq 0).length ≤ envTwoReq.maxSteps)
        ∨ (selectedSteps envTwoReq 0).length = envTwoReq.steps.length) := by
  refine ⟨by decide, rfl, rfl, ?_⟩
  decide

/-- Claim C4, amended.  For configurations with 0 < minSteps ≤ maxSteps
and maxSteps at most the number of configured steps, the number of steps
executed per iteration is at least minSteps, at most the number of
configured steps, and at most the larger of maxSteps and the number of
required steps; in particular it lies within [minSteps, maxSteps]
whenever at most maxSteps steps are marked required.  The shuffle
hypothesis states that `shuf` is length-preserving. -/
theorem stepsExecuted_amended_bounds (env : PipelineEnv) (i : Nat)
    (h0 : 0 < env.minSteps) (h1 : env.minSteps ≤ env.maxSteps)
    (h2 : env.maxSteps ≤ env.steps.length)
    (hs : (env.shuffle i (optionalSteps env)).length = (optionalSteps env).length) :
    env.minSteps ≤ (selectedSteps env i).length
    ∧ (selectedSteps env i).length ≤ max env.maxSteps (requiredCount env)
    ∧ (selectedSteps env i).length ≤ env.steps.length
    ∧ (requiredCount env ≤ env.maxSteps →
        (selectedSteps env i).length ≤ env.maxSteps) := by
  have hRO := requiredCount_add_optional env
  have hmodlt : env.draw i % (env.maxSteps - env.minSteps + 1)
      < env.maxSteps - env.minSteps + 1 := Nat.mod_lt _ (by omega)
  have hsle : stepsToRun env i ≤ env.maxSteps := by
    unfold stepsToRun
    omega
  have hsge : env.minSteps ≤ stepsToRun env i := by
    unfold stepsToRun
    omega
  have hlen : (selectedSteps env i).length
      = requiredCount env + (selectedOptionals env i).length := by
    simp [selectedSteps, requiredCount, List.length_append]
  have hbud : optionalBudget env i
      = (stepsToRun env i : Int) - (requiredCount env : Int) := rfl
  by_cases hbpos : 0 < optionalBudget env i
  · have hoptlen : (selectedOptionals env i).length
        = min (optionalBudget env i).toNat (optionalSteps env).length := by
      simp [selectedOptionals, hbpos, List.length_take, hs]
    refine ⟨?_, ?_, ?_, fun hR => ?_⟩ <;> omega
  · have hoptlen : (selectedOptionals env i).length = 0 := by
      simp [selectedOptionals, hbpos]
    refine ⟨?_, ?_, ?_, fun hR => ?_⟩ <;> omega

/-- Witness for the amended C4 bounds at the concrete run envAllPass. -/
theorem stepsExecuted_amended_bounds_witness :
    envAllPass.minSteps ≤ (selectedSteps envAllPass 0).length
    ∧ (selectedSteps envAllPass 0).length
        ≤ max envAllPass.maxSteps (requiredCount envAllPass)
    ∧ (selectedSteps envAllPass 0).length ≤ envAllPass.steps.length
    ∧ (requiredCount envAllPass ≤ envAllPass.maxSteps →
        (selectedSteps envAllPass 0).length ≤ envAllPass.maxSteps) :=
  stepsExecuted_amended_bounds envAllPass 0 (by decide) (by decide) (by decide) rfl

/-- Claim C6.  When the target branch does not exist, every step script
short-circuits: the changed-file set it determines is empty and its exit
status is 0, for the syntax-check, code-style, security-scan,
breaking-changes and human-review steps alike. -/
theorem missing_branch_short_circuits (g : GitEnv)
    (iteration critical api db tests : Nat)
    (hb : g.branchExists = false) :
    changedFilesRecorded g = []
    ∧ syntaxCheckExit g = 0
    ∧ codeStyleExit g = 0
    ∧ securityScanExit g iteration critical = 0
    ∧ breakingChangesExit g api db tests = 0
    ∧ humanReviewExit g = 0 := by
  simp [changedFilesRecorded, syntaxCheckExit, codeStyleExit, securityScanExit,
        breakingChangesExit, humanReviewExit, hb]

/-- Witness for C6 at a concrete environment with a missing branch. -/
theorem missing_branch_short_circuits_witness :
    changedFilesRecorded gitNoBranch = []
    ∧ syntaxCheckExit gitNoBranch = 0
    ∧ codeStyleExit gitNoBranch = 0
    ∧ securityScanExit gitNoBranch 1 1 = 0
    ∧ breakingChangesExit gitNoBranch 3 1 9 = 0
    ∧ humanReviewExit gitNoBranch = 0 :=
  missing_branch_short_circuits gitNoBranch 1 1 3 1 9 rfl

/-- Claim C7.  With an existing target branch and a nonempty changed-file
list, each step exits 0 unless its own hard threshold is exceeded:
syntax-check fails exactly when TOTAL_ERRORS exceeds 5; security-scan
fails exactly when a critical finding exists at a positive iteration
number; code-style and human-review have no blocking threshold;
breaking-changes fails exactly on more than 2 breaking changes or,
failing that, more than 5 failed tests. -/
theorem thresholds_characterize_step_exit (g : GitEnv)
    (iteration critical api db tests : Nat)
    (hb : g.branchExists = true) (hc : g.changedFiles ≠ []) :
    (syntaxCheckExit g = if 5 < syntaxTotalErrors g then 1 else 0)
    ∧ (securityScanExit g iteration critical
        = if 0 < critical ∧ 0 < iteration then 1 else 0)
    ∧ codeStyleExit g = 0
    ∧ (breakingChangesExit g api db tests
        = if 2 < api + db then 1 else if 5 < tests then 1 else 0)
    ∧ humanReviewExit g = 0 := by
  have hlen : g.changedFiles.length ≠ 0 := by
    simpa [List.length_eq_zero] using hc
  simp [syntaxCheckExit, securityScanExit, codeStyleExit, breakingChangesExit,
        humanReviewExit, hb, hlen]

/-- Witness for C7 at a concrete one-changed-file environment whose
simulated syntax error count is 7. -/
theorem thresholds_characterize_step_exit_witness :
    (syntaxCheckExit gitOneFile = if 5 < syntaxTotalErrors gitOneFile then 1 else 0)
    ∧ (securityScanExit gitOneFile 1 1 = if 0 < 1 ∧ 0 < 1 then 1 else 0)
    ∧ codeStyleExit gitOneFile = 0
    ∧ (breakingChangesExit gitOneFile 2 1 0
        = if 2 < 2 + 1 then 1 else if 5 < 0 then 1 else 0)
    ∧ humanReviewExit gitOneFile = 0 :=
  thresholds_characterize_step_exit gitOneFile 1 1 2 1 0 rfl (by decide)

/-- Positions below the required count in the execution order hold
required steps (the first loop, run-pipeline.sh lines 203-223). -/
theorem selectedSteps_required_of_lt (env : PipelineEnv) (i j : Nat)
    (hj : j < requiredCount env) (h : j < (selectedSteps env i).length) :
    ((selectedSteps env i).get ⟨j, h⟩).required = true := by
  have hR : j < (requiredSteps env).length := hj
  have hget : (selectedSteps env i).get ⟨j, h⟩ = (requiredSteps env).get ⟨j, hR⟩ :=
    List.get_append j hR
  rw [hget]
  have hmem := (requiredSteps env).get_mem j hR
  exact (List.mem_filter.mp hmem).2

/-- Positions at or beyond the required count in the execution order
hold optional steps (the second loop, run-pipeline.sh lines 234-240),
provided shuf returns elements of its input list. -/
theorem selectedSteps_optional_of_ge (env : PipelineEnv) (i j : Nat)
    (hshuf : ∀ st ∈ env.shuffle i (optionalSteps env), st ∈ optionalSteps env)
    (hj : requiredCount env ≤ j) (h : j < (selectedSteps env i).length) :
    ((selectedSteps env i).get ⟨j, h⟩).required = false := by
  have hR : (requiredSteps env).length ≤ j := hj
  have hlen : (selectedSteps env i).length
      = (requiredSteps env).length + (selectedOptionals env i).length := by
    simp [selectedSteps, List.length_append]
  have hj2 : j - (requiredSteps env).length < (selectedOptionals env i).length := by
    omega
  have hget : (selectedSteps env i).get ⟨j, h⟩
      = (selectedOptionals env i).get ⟨j - (requiredSteps env).length, hj2⟩ :=
    List.get_append_right (requiredSteps env) (selectedOptionals env i) hR
  rw [hget]
  have hmem := (selectedOptionals env i).get_mem (j - (requiredSteps env).length) hj2
  have hsub : ∀ x ∈ selectedOptionals env i, x ∈ env.shuffle i (optionalSteps env) := by
    intro x hx
    unfold selectedOptionals at hx
    by_cases hbpos : 0 < optionalBudget env i
    · rw [if_pos hbpos] at hx
      exact List.take_subset _ _ hx
    · rw [if_neg hbpos] at hx
      cases hx
  have hmem2 := hsub _ hmem
  have hopt := hshuf _ hmem2
  have hreq := (List.mem_filter.mp hopt).2
  simpa using hreq

/-- Claim C8.  Within an iteration, every required step is executed
before any optional step: in the execution order selectedSteps, any
position holding a required step precedes any position holding an
optional step (shuf is assumed to return elements of its input). -/
theorem required_before_optional (env : PipelineEnv) (i : Nat)
    (hshuf : ∀ st ∈ env.shuffle i (optionalSteps env), st ∈ optionalSteps env)
    (a b : Nat) (ha : a < (selectedSteps env i).length)
    (hb : b < (selectedSteps env i).length)
    (hra : ((selectedSteps env i).get ⟨a, ha⟩).required = true)
    (hrb : ((selectedSteps env i).get ⟨b, hb⟩).required = false) :
    a < b := by
  have haR : a < requiredCount env := by
    by_contra hge
    push_neg at hge
    have hfalse := selectedSteps_optional_of_ge env i a hshuf hge ha
    rw [hra] at hfalse
    cases hfalse
  have hbR : requiredCount env ≤ b := by
    by_contra hlt
    push_neg at hlt
    have htrue := selectedSteps_required_of_lt env i b hlt hb
    rw [hrb] at htrue
    cases htrue
  omega

/-- Witness for C8 at the concrete run envBothPass, whose iteration-0
execution order is the required syntax_check followed by the optional
code_style: position 0 is required and precedes position 1. -/
theorem required_before_optional_witness :
    ((selectedSteps envBothPass 0).get ⟨0, by decide⟩).required = true
    ∧ (0 : Nat) < 1 := by
  refine ⟨rfl, ?_⟩
  exact required_before_optional envBothPass 0 (fun st h => h) 0 1
    (by decide) (by decide) rfl rfl

end AIPipeline
